import Mathlib

/-!
Verification of the PDF analysis application (`src/app.py`).

The development shallowly embeds the reproducible core of the program:

* `configure_gemini` — startup credential check (app.py lines 14-24);
* `extract_text_from_pdf` — PDF text extraction with two backends and a
  transient temporary file for the PyMuPDF path (lines 27-53);
* `generate_summary` / `generate_custom_qa` — prompt construction,
  LLM call, and interpretation of the raw response via Python `eval`
  (lines 56-97);
* `process_multiple_pdfs` — the batch orchestrator (lines 100-116);
* `save_analysis_results` — JSON export (lines 119-121).

External libraries are modelled at their interfaces: a PDF file is
represented by the page texts each parser backend would produce (`none`
when that backend throws), the LLM service is an oracle from prompt
strings to raw responses, and Python `eval` of a raw response is
represented by the response's Python parse tree (`RawResponse.parsed`,
`none` when the text is not a syntactically valid expression) together
with an evaluator that records the side effects the evaluated code
performs.  The `json.dumps`/`json.loads` string codec of the standard
library is modelled as the identity on JSON trees.
-/

namespace PDFChat

/-- Python truthiness of an optional string value: `None` and the empty
string are falsy, every other string is truthy (used for
`if not GOOGLE_API_KEY` and `if text:`). -/
def optTruthy : Option String → Bool
  | none => false
  | some s => !s.isEmpty

/-- Python slicing `s[:n]`: the first `n` characters of the string. -/
def pyTruncate (s : String) (n : Nat) : String := String.mk (s.data.take n)

/-! ## Startup configuration (app.py lines 14-24) -/

/-- Handle returned by `genai.GenerativeModel('gemini-pro')`. -/
structure GenerativeModel where
  model_name : String
deriving Repr, DecidableEq

/-- Result of a successful startup: the credential passed to
`genai.configure(api_key=...)` plus the model handle. -/
structure ConfiguredGemini where
  api_key : String
  model : GenerativeModel
deriving Repr, DecidableEq

/-- The `exit()` call that terminates the process. -/
inductive ProcessExit where
  | exitCalled
deriving Repr, DecidableEq

/-- `configure_gemini` (app.py lines 14-24): if the credential is falsy
(`None` or empty) the process prints a message and calls `exit()`;
otherwise the API is configured with the key and the `gemini-pro`
model handle is returned.  `main` (line 129) runs this before any
extraction or generation request is handled. -/
def configure_gemini (GOOGLE_API_KEY : Option String) :
    Except ProcessExit ConfiguredGemini :=
  if optTruthy GOOGLE_API_KEY then
    .ok ⟨GOOGLE_API_KEY.getD "", ⟨"gemini-pro"⟩⟩
  else
    .error .exitCalled

/-! ## Text extraction (app.py lines 27-53) -/

/-- State of the filesystem relevant to the program: the temporary
files currently present on disk. -/
structure FS where
  tmpFiles : List String
deriving Repr, DecidableEq

/-- An uploaded PDF file, represented by its display name and, for each
parser backend, the list of per-page texts that backend extracts from
its bytes — `none` when that backend raises on the file (malformed
PDF, parser-internal exception). -/
structure UploadedFile where
  name : String
  pagesMu : Option (List String)
  pagesPy : Option (List String)
deriving Repr, DecidableEq

/-- The text the PyMuPDF branch computes for a file: the page loop
`text = ""; for page in doc: text += page.get_text()`, or `none`
when `fitz.open`/`get_text` raises. -/
def pymupdf_text (f : UploadedFile) : Option String :=
  match f.pagesMu with
  | none => none
  | some ps => some (ps.foldl (· ++ ·) "")

/-- The PyMuPDF branch of `extract_text_from_pdf` (lines 30-43): a
temporary file is created (`tempfile.NamedTemporaryFile(delete=False)`)
and written; on success the pages are concatenated, the temporary file
is unlinked and the text returned; when the parser raises, the
`except` handler (line 51) reports the error and returns `None` — the
`os.unlink` on line 42 is skipped. -/
def extract_with_pymupdf (f : UploadedFile) (fs : FS) (tmp : String) :
    Option String × FS :=
  match f.pagesMu with
  | none => (none, ⟨tmp :: fs.tmpFiles⟩)
  | some ps => (some (ps.foldl (· ++ ·) ""), ⟨(tmp :: fs.tmpFiles).erase tmp⟩)

/-- The PyPDF2 branch of `extract_text_from_pdf` (lines 44-50): reads
the stream directly (no temporary file); page texts are concatenated;
a raising parser is caught by the handler and yields `None`. -/
def extract_with_pypdf2 (f : UploadedFile) : Option String :=
  match f.pagesPy with
  | none => none
  | some ps => some (ps.foldl (· ++ ·) "")

/-- `extract_text_from_pdf` (app.py lines 27-53): dispatches on
`parser_choice == "PyMuPDF"`; every other selector value falls through
to the PyPDF2 branch.  Returns the extracted text (`none` on failure)
together with the resulting filesystem state; `tmp` is the fresh path
the temporary-file library would allocate. -/
def extract_text_from_pdf (f : UploadedFile) (parser_choice : String)
    (fs : FS) (tmp : String) : Option String × FS :=
  if parser_choice == "PyMuPDF" then extract_with_pymupdf f fs tmp
  else (extract_with_pypdf2 f, fs)

/-! ## Python values and `eval` of the raw LLM response

`generate_custom_qa` interprets the raw response with
`eval(response.text)` (app.py line 94).  A raw response therefore
carries, besides its text, the Python parse tree of that text (`none`
when the text is not a valid expression, in which case `eval` raises a
`SyntaxError` that the `except` handler catches).  `pyEval` evaluates
a parse tree, returning the resulting value or a raised exception,
together with the list of side effects the evaluation performed
(function calls such as `os.system`). -/

/-- Parse tree of a Python expression, as `eval` would interpret the
raw response text.  `callE` is a function call — evaluating it runs
arbitrary code; `raiseE` is an expression whose evaluation raises. -/
inductive PyExpr where
  | intLit (n : Int)
  | strLit (s : String)
  | listE (xs : List PyExpr)
  | dictE (kvs : List (String × PyExpr))
  | callE (fname : String) (args : List PyExpr)
  | raiseE (msg : String)
deriving Repr

/-- A Python value produced by evaluation. -/
inductive PyValue where
  | int (n : Int)
  | str (s : String)
  | list (xs : List PyValue)
  | dict (kvs : List (String × PyValue))
deriving Repr

mutual

/-- Evaluation of a Python expression: the value or raised exception,
paired with the names of the side-effecting calls executed. -/
def pyEval : PyExpr → Except String PyValue × List String
  | .intLit n => (.ok (.int n), [])
  | .strLit s => (.ok (.str s), [])
  | .listE xs =>
    match pyEvalList xs with
    | (.ok vs, effs) => (.ok (.list vs), effs)
    | (.error e, effs) => (.error e, effs)
  | .dictE kvs =>
    match pyEvalPairs kvs with
    | (.ok vs, effs) => (.ok (.dict vs), effs)
    | (.error e, effs) => (.error e, effs)
  | .callE fname args =>
    match pyEvalList args with
    | (.ok _, effs) => (.ok (.str ""), effs ++ [fname])
    | (.error e, effs) => (.error e, effs)
  | .raiseE msg => (.error msg, [])

/-- Evaluation of a list of expressions, left to right. -/
def pyEvalList : List PyExpr → Except String (List PyValue) × List String
  | [] => (.ok [], [])
  | x :: xs =>
    match pyEval x with
    | (.ok v, effs) =>
      match pyEvalList xs with
      | (.ok vs, effs2) => (.ok (v :: vs), effs ++ effs2)
      | (.error e, effs2) => (.error e, effs ++ effs2)
    | (.error e, effs) => (.error e, effs)

/-- Evaluation of dictionary entries (string keys), left to right. -/
def pyEvalPairs :
    List (String × PyExpr) → Except String (List (String × PyValue)) × List String
  | [] => (.ok [], [])
  | (k, x) :: xs =>
    match pyEval x with
    | (.ok v, effs) =>
      match pyEvalPairs xs with
      | (.ok vs, effs2) => (.ok ((k, v) :: vs), effs ++ effs2)
      | (.error e, effs2) => (.error e, effs ++ effs2)
    | (.error e, effs) => (.error e, effs)

end

/-- A raw response from the LLM service: its text, and the Python parse
tree `eval` would assign to that text (`none` = `SyntaxError`). -/
structure RawResponse where
  text : String
  parsed : Option PyExpr

/-- The LLM service as seen through `model.generate_content`: maps a
prompt to a raw response, or raises (network/quota/service error). -/
def GenModel : Type := String → Except String RawResponse

/-! ## Prompt construction and generation (app.py lines 56-97) -/

/-- The f-string of `generate_summary` (lines 58-65); the trailing
`# Limiting text length to avoid token limits` is part of the
f-string literal and hence of the prompt. -/
def summary_prompt (text : String) : String :=
  "\n    Please provide a comprehensive summary of the following text, including:\n    1. Main topics and key points\n    2. Important findings or conclusions\n    3. Notable details or examples\n\n    Text: " ++
    pyTruncate text 5000 ++
    "  # Limiting text length to avoid token limits\n    "

/-- `generate_summary` (lines 56-72): builds the prompt, calls the
model, and returns the response text, or `None` when the call raises
(the handler shows the error).  Also returns the list of prompts sent
over the network by this call. -/
def generate_summary (model : GenModel) (text : String) :
    Option String × List String :=
  let prompt := summary_prompt text
  match model prompt with
  | .ok resp => (some resp.text, [prompt])
  | .error _ => (none, [prompt])

/-- The `factual` template of `prompt_templates` (line 78), as the
function `.format(n=...)` denotes on it. -/
def factual_template (n : Nat) : String :=
  "Generate " ++ toString n ++
    " factual questions that test knowledge of specific information from the text."

/-- The `conceptual` template of `prompt_templates` (line 79). -/
def conceptual_template (n : Nat) : String :=
  "Generate " ++ toString n ++
    " conceptual questions that require understanding of main ideas and themes."

/-- The `analytical` template of `prompt_templates` (line 80). -/
def analytical_template (n : Nat) : String :=
  "Generate " ++ toString n ++
    " analytical questions that require critical thinking and analysis of the content."

/-- The `application` template of `prompt_templates` (line 81). -/
def application_template (n : Nat) : String :=
  "Generate " ++ toString n ++
    " questions that ask how the concepts from the text can be applied to real-world situations."

/-- The `prompt_templates` dict of `generate_custom_qa` (lines 77-82);
subscripting an absent key raises `KeyError`, modelled by `List.lookup`
returning `none`. -/
def prompt_templates : List (String × (Nat → String)) :=
  [("factual", factual_template),
   ("conceptual", conceptual_template),
   ("analytical", analytical_template),
   ("application", application_template)]

/-- The f-string of `generate_custom_qa` (lines 84-90), given the
already-formatted instruction line. -/
def qa_prompt (instr : String) (text : String) : String :=
  "\n    " ++ instr ++
    "\n    Format the response as a list of dictionaries with \x27question\x27 and \x27answer\x27 keys.\n    Make answers detailed and comprehensive.\n\n    Text: " ++
    pyTruncate text 5000 ++ "\n    "

/-- Exceptions that escape the embedded functions uncaught. -/
inductive PyError where
  | keyError (key : String)
deriving Repr, DecidableEq

/-- `generate_custom_qa` (app.py lines 75-97).  The dict subscript
`prompt_templates[question_type]` happens while building the prompt,
before the `try` block: an unknown `question_type` raises an uncaught
`KeyError` and no network call is made.  Otherwise the prompt is sent;
on a service error the handler returns `None`; on success the raw
response text is passed to `eval` (line 94) and whatever `eval`
produces is returned unchanged — a raising `eval` is caught by the
same handler and yields `None`.  The second component is the list of
prompts sent over the network, the third the side effects executed by
`eval` of the response. -/
def generate_custom_qa (model : GenModel) (text : String)
    (question_type : String) (num_questions : Nat) :
    Except PyError (Option PyValue) × List String × List String :=
  match prompt_templates.lookup question_type with
  | none => (.error (.keyError question_type), [], [])
  | some tmpl =>
    let prompt := qa_prompt (tmpl num_questions) text
    match model prompt with
    | .error _ => (.ok none, [prompt], [])
    | .ok resp =>
      match resp.parsed with
      | none => (.ok none, [prompt], [])
      | some e =>
        match pyEval e with
        | (.ok v, effs) => (.ok (some v), [prompt], effs)
        | (.error _, effs) => (.ok none, [prompt], effs)

/-! ## Batch orchestration (app.py lines 100-116) -/

/-- One entry of the batch result: the dict appended on lines 110-114. -/
structure AnalysisResult where
  filename : String
  summary : Option String
  qa_pairs : Option PyValue
deriving Repr

/-- The temporary-file path allocated for the `i`-th extraction of a
batch run. -/
def tmpName (i : Nat) : String := "tmp" ++ toString i

/-- `process_multiple_pdfs` (app.py lines 100-116): for each file,
extract with the default parser (`PyMuPDF`); only when the text is
truthy (`if text:`) are the summary and three factual Q&A pairs
generated and a result dict appended; otherwise the file contributes
nothing and processing continues.  Returns the results (or an
uncaught exception), the final filesystem state, and every prompt
sent over the network during the run. -/
def process_multiple_pdfs (files : List UploadedFile) (model : GenModel)
    (fs : FS) (ctr : Nat) :
    Except PyError (List AnalysisResult) × FS × List String :=
  match files with
  | [] => (.ok [], fs, [])
  | f :: rest =>
    let ex := extract_text_from_pdf f "PyMuPDF" fs (tmpName ctr)
    if optTruthy ex.1 then
      let text := ex.1.getD ""
      let gs := generate_summary model text
      match generate_custom_qa model text "factual" 3 with
      | (.error e, qprompts, _) => (.error e, ex.2, gs.2 ++ qprompts)
      | (.ok qa, qprompts, _) =>
        match process_multiple_pdfs rest model ex.2 (ctr + 1) with
        | (.ok rs, fs2, prompts2) =>
          (.ok (⟨f.name, gs.1, qa⟩ :: rs), fs2, gs.2 ++ qprompts ++ prompts2)
        | (.error e, fs2, prompts2) =>
          (.error e, fs2, gs.2 ++ qprompts ++ prompts2)
    else
      process_multiple_pdfs rest model ex.2 (ctr + 1)

/-! ## JSON export (app.py lines 119-121) -/

/-- Abstract syntax of the JSON documents `json.dumps` renders and
`json.loads` reads back. -/
inductive Json where
  | jnull
  | jstr (s : String)
  | jint (n : Int)
  | jarr (xs : List Json)
  | jobj (kvs : List (String × Json))
deriving Repr

mutual

/-- How `json.dumps` serializes a Python value. -/
def pyValueToJson : PyValue → Json
  | .int n => .jint n
  | .str s => .jstr s
  | .list xs => .jarr (pyValuesToJson xs)
  | .dict kvs => .jobj (pyPairsToJson kvs)

/-- Serialization of a list of Python values. -/
def pyValuesToJson : List PyValue → List Json
  | [] => []
  | x :: xs => pyValueToJson x :: pyValuesToJson xs

/-- Serialization of dictionary entries, in insertion order. -/
def pyPairsToJson : List (String × PyValue) → List (String × Json)
  | [] => []
  | (k, x) :: xs => (k, pyValueToJson x) :: pyPairsToJson xs

end

/-- Serialization of the `summary` field: `None` becomes JSON null. -/
def summaryToJson : Option String → Json
  | none => .jnull
  | some s => .jstr s

/-- Serialization of the `qa_pairs` field: `None` becomes JSON null. -/
def qaToJson : Option PyValue → Json
  | none => .jnull
  | some v => pyValueToJson v

/-- Serialization of one result dict, keys in insertion order. -/
def resultToJson (r : AnalysisResult) : Json :=
  .jobj [("filename", .jstr r.filename),
         ("summary", summaryToJson r.summary),
         ("qa_pairs", qaToJson r.qa_pairs)]

/-- `save_analysis_results` (app.py lines 119-121): the JSON document
`json.dumps(results, indent=2)` renders.  The `dumps`/`loads` string
codec of the standard library is modelled as the identity on JSON
trees. -/
def save_analysis_results (results : List AnalysisResult) : Json :=
  .jarr (results.map resultToJson)

mutual

/-- Reading a Python value back from JSON (`json.loads`). -/
def jsonToPyValue : Json → Option PyValue
  | .jint n => some (.int n)
  | .jstr s => some (.str s)
  | .jarr xs => (jsonToPyValues xs).map PyValue.list
  | .jobj kvs => (jsonToPyPairs kvs).map PyValue.dict
  | .jnull => none

/-- Reading a list of Python values back from JSON. -/
def jsonToPyValues : List Json → Option (List PyValue)
  | [] => some []
  | x :: xs =>
    match jsonToPyValue x, jsonToPyValues xs with
    | some v, some vs => some (v :: vs)
    | _, _ => none

/-- Reading dictionary entries back from JSON. -/
def jsonToPyPairs : List (String × Json) → Option (List (String × PyValue))
  | [] => some []
  | (k, x) :: xs =>
    match jsonToPyValue x, jsonToPyPairs xs with
    | some v, some vs => some ((k, v) :: vs)
    | _, _ => none

end

/-- Decoding the `summary` field. -/
def jsonToSummary : Json → Option (Option String)
  | .jnull => some none
  | .jstr s => some (some s)
  | _ => none

/-- Decoding the `qa_pairs` field: null is the absent marker, any
other document decodes as a present Python value. -/
def jsonToQa : Json → Option (Option PyValue)
  | .jnull => some none
  | .jstr s => some (some (.str s))
  | .jint n => some (some (.int n))
  | .jarr xs => (jsonToPyValues xs).map (fun vs => some (.list vs))
  | .jobj kvs => (jsonToPyPairs kvs).map (fun vs => some (.dict vs))

/-- Decoding one result dict. -/
def jsonToResult : Json → Option AnalysisResult
  | .jobj [("filename", .jstr f), ("summary", sj), ("qa_pairs", qj)] =>
    match jsonToSummary sj, jsonToQa qj with
    | some s, some q => some ⟨f, s, q⟩
    | _, _ => none
  | _ => none

/-- Decoding a list of result dicts. -/
def jsonToResults : List Json → Option (List AnalysisResult)
  | [] => some []
  | x :: xs =>
    match jsonToResult x, jsonToResults xs with
    | some r, some rs => some (r :: rs)
    | _, _ => none

/-- Decoding a whole exported batch document. -/
def load_analysis_results : Json → Option (List AnalysisResult)
  | .jarr xs => jsonToResults xs
  | _ => none

/-! ## Derived notions used in the statements -/

/-- Concatenation of the per-page texts in document page order, with
no separator inserted between pages. -/
def concatPages (ps : List String) : String := ps.foldr (· ++ ·) ""

/-- Whether a file passes the `if text:` guard of the batch loop under
the default (PyMuPDF) extraction: extraction succeeded and produced a
non-empty string. -/
def extractedTruthy (f : UploadedFile) : Bool := optTruthy (pymupdf_text f)

/-- The text the batch loop works with for a file that passed the
guard. -/
def doc_text (f : UploadedFile) : String := (pymupdf_text f).getD ""

/-- The `qa_pairs` value `generate_custom_qa` hands back to a caller
that treats an uncaught exception as no value. -/
def qa_payload (m : GenModel) (t qt : String) (k : Nat) : Option PyValue :=
  match generate_custom_qa m t qt k with
  | (.ok v, _, _) => v
  | (.error _, _, _) => none

/-- The result dict the batch loop appends for one file that passed
the `if text:` guard (app.py lines 107-114). -/
def analyzeOne (m : GenModel) (f : UploadedFile) : AnalysisResult :=
  ⟨f.name, (generate_summary m (doc_text f)).1, qa_payload m (doc_text f) "factual" 3⟩

/-- The prompts the batch loop sends over the network for one file
that passed the `if text:` guard. -/
def docPrompts (m : GenModel) (f : UploadedFile) : List String :=
  (generate_summary m (doc_text f)).2 ++
    (generate_custom_qa m (doc_text f) "factual" 3).2.1

/-- Number of result entries in a batch outcome. -/
def resultsLen : Except PyError (List AnalysisResult) × FS × List String → Nat
  | (.ok rs, _, _) => rs.length
  | (.error _, _, _) => 0

/-- Modelled from the spec: the structure the Response Interpreter is
required to validate — a sequence of mapping objects each containing
exactly a `question` and an `answer` key. -/
def spec_qa_structure_ok : PyValue → Bool
  | .list xs => xs.all fun x =>
      match x with
      | .dict kvs =>
        kvs.length == 2 && (kvs.map Prod.fst).contains "question" &&
          (kvs.map Prod.fst).contains "answer"
      | _ => false
  | _ => false

/-! ## Concrete fixtures -/

/-- A malformed PDF: both parser backends raise on it. -/
def BadPDF : UploadedFile := ⟨"corrupt.pdf", none, none⟩

/-- A readable one-page PDF. -/
def F1 : UploadedFile := ⟨"doc1.pdf", some ["hello "], some ["hello "]⟩

/-- A readable two-page PDF. -/
def F3 : UploadedFile := ⟨"doc3.pdf", some ["alpha ", "beta"], some ["alpha ", "beta"]⟩

/-- A PDF whose extraction succeeds but yields the empty string. -/
def EmptyPDF : UploadedFile := ⟨"blank.pdf", some [], some []⟩

/-- A well-formed Q&A response: a list with one question/answer dict. -/
def RespQA : RawResponse :=
  ⟨"qa", some (.listE [.dictE [("question", .strLit "q1"), ("answer", .strLit "a1")]])⟩

/-- An oracle that always answers with the well-formed Q&A response. -/
def Mok : GenModel := fun _ => .ok RespQA

/-- A raw response whose text is the bare integer literal `42` — valid
Python, but not a sequence of question/answer mappings. -/
def RespInt : RawResponse := ⟨"42", some (.intLit 42)⟩

/-- An oracle answering with the non-conforming integer response. -/
def MInt : GenModel := fun _ => .ok RespInt

/-- A raw response whose text is a side-effecting call — evaluating it
runs the call. -/
def RespPwn : RawResponse :=
  ⟨"__import__(os).system(touch pwned)", some (.callE "os.system" [.strLit "touch pwned"])⟩

/-- An oracle answering with the side-effecting response. -/
def MPwn : GenModel := fun _ => .ok RespPwn

/-- An oracle for which every generation call raises a service error. -/
def Mfail : GenModel := fun _ => .error "503 service unavailable"

/-! ## Helper lemmas -/

/-- The page loop `text = ""; text += page` accumulates exactly the
in-order concatenation of the pages. -/
theorem foldl_append_eq (ps : List String) :
    ∀ acc : String, ps.foldl (· ++ ·) acc = acc ++ concatPages ps := by
  induction ps with
  | nil => intro acc; simp [concatPages]
  | cons p ps ih =>
    intro acc
    simp only [List.foldl_cons, ih (acc ++ p), concatPages, List.foldr_cons]
    simp [concatPages, String.append_assoc]

/-- The text component of a PyMuPDF extraction does not depend on the
filesystem state or the temporary path. -/
theorem extract_mu_fst (f : UploadedFile) (fs : FS) (tmp : String) :
    (extract_text_from_pdf f "PyMuPDF" fs tmp).1 = pymupdf_text f := by
  cases h : f.pagesMu <;>
    simp [extract_text_from_pdf, extract_with_pymupdf, pymupdf_text, h]

/-- A known question type makes `generate_custom_qa` reach the `try`
block: the outcome is never an uncaught exception, and exactly the
rendered prompt is sent to the service. -/
theorem generate_custom_qa_known (m : GenModel) (t qt : String) (k : Nat)
    (tmpl : Nat → String) (h : prompt_templates.lookup qt = some tmpl) :
    ∃ v ef, generate_custom_qa m t qt k = (.ok v, [qa_prompt (tmpl k) t], ef) := by
  simp only [generate_custom_qa, h]
  cases hm : m (qa_prompt (tmpl k) t) with
  | error e => exact ⟨none, [], rfl⟩
  | ok resp =>
    cases hp : resp.parsed with
    | none => exact ⟨none, [], by simp [hp]⟩
    | some e =>
      cases hv : pyEval e with
      | mk r effs =>
        cases r with
        | ok v => exact ⟨some v, effs, by simp [hp, hv]⟩
        | error err => exact ⟨none, effs, by simp [hp, hv]⟩

/-- Characterization of the batch orchestrator: it never raises, its
entries are exactly the files passing the `if text:` guard, in input
order, each analyzed by the per-document pipeline, and the prompts
sent are exactly those of the retained files. -/
theorem process_spec (files : List UploadedFile) (m : GenModel) (fs : FS) (ctr : Nat) :
    ∃ fs', process_multiple_pdfs files m fs ctr =
      (.ok ((files.filter extractedTruthy).map (analyzeOne m)), fs',
        ((files.filter extractedTruthy).map (docPrompts m)).flatten) := by
  induction files generalizing fs ctr with
  | nil => exact ⟨fs, rfl⟩
  | cons f rest ih =>
    have hfst := extract_mu_fst f fs (tmpName ctr)
    by_cases htru : extractedTruthy f = true
    · have htxt : (extract_text_from_pdf f "PyMuPDF" fs (tmpName ctr)).1.getD "" = doc_text f := by
        rw [hfst]; rfl
      obtain ⟨v, ef, hq⟩ :=
        generate_custom_qa_known m (doc_text f) "factual" 3 factual_template rfl
      obtain ⟨fs', hrest⟩ := ih (extract_text_from_pdf f "PyMuPDF" fs (tmpName ctr)).2 (ctr + 1)
      refine ⟨fs', ?_⟩
      rw [process_multiple_pdfs]
      simp only [htru, extractedTruthy] at *
      rw [show optTruthy (extract_text_from_pdf f "PyMuPDF" fs (tmpName ctr)).1 = true by
        rw [hfst]; exact htru]
      simp only [if_true, htxt, hq, hrest]
      simp [List.filter_cons, htru, analyzeOne, docPrompts, hq, qa_payload, extractedTruthy]
    · have htru' : extractedTruthy f = false := by
        cases h : extractedTruthy f
        · rfl
        · exact absurd h htru
      obtain ⟨fs', hrest⟩ := ih (extract_text_from_pdf f "PyMuPDF" fs (tmpName ctr)).2 (ctr + 1)
      refine ⟨fs', ?_⟩
      rw [process_multiple_pdfs]
      rw [show optTruthy (extract_text_from_pdf f "PyMuPDF" fs (tmpName ctr)).1 = false by
        rw [hfst]; exact htru']
      simp only [Bool.false_eq_true, if_false, hrest, List.filter_cons, htru']

/-! ## Claims -/

/-- C1.  The claim says the Q&A parsing of the raw LLM response
validates that the decoded structure is a sequence of mappings with
exactly a question and an answer key, yields a parse failure on
anything else, and never executes the response as code.  The code
(app.py line 94) instead evaluates the raw response with `eval`: a
syntactically valid but non-conforming response (the bare literal
`42`) is returned as the Q&A result with no failure, and a response
containing a call executes that call as a side effect. -/
theorem c1_eval_executes_response_unvalidated :
    generate_custom_qa MInt "doc" "factual" 5 =
      (.ok (some (.int 42)), [qa_prompt (factual_template 5) "doc"], []) ∧
    spec_qa_structure_ok (.int 42) = false ∧
    (generate_custom_qa MPwn "doc" "factual" 5).2.2 = ["os.system"] :=
  ⟨rfl, rfl, rfl⟩

/-- C3.  When the PyMuPDF parser raises, the `except` handler is
entered before `os.unlink` (app.py line 42) runs: starting from an
empty filesystem, extracting the malformed PDF leaves the temporary
copy `tmp0` on disk, while a successful extraction removes it. -/
theorem c3_temp_file_leak_on_parser_failure :
    extract_text_from_pdf BadPDF "PyMuPDF" ⟨[]⟩ "tmp0" = (none, ⟨["tmp0"]⟩) ∧
    (⟨["tmp0"]⟩ : FS).tmpFiles ≠ [] ∧
    extract_text_from_pdf F1 "PyMuPDF" ⟨[]⟩ "tmp0" = (some "hello ", ⟨[]⟩) :=
  ⟨rfl, by decide, rfl⟩

/-- C4.  For a `question_type` outside the four known templates, the
dict subscript raises `KeyError` while the prompt is being built,
before the `try` block: the call signals a caller error, sends no
prompt to the LLM service, and does not fall back to any template. -/
theorem c4_unknown_question_type_fails_fast (m : GenModel) (text : String)
    (k : Nat) (qt : String)
    (h : qt ∉ ["factual", "conceptual", "analytical", "application"]) :
    generate_custom_qa m text qt k = (.error (.keyError qt), [], []) := by
  simp only [List.mem_cons, not_or] at h
  obtain ⟨h1, h2, h3, h4, -⟩ := h
  have hl : prompt_templates.lookup qt = none := by
    simp [prompt_templates, List.lookup,
      show (qt == "factual") = false by simpa using h1,
      show (qt == "conceptual") = false by simpa using h2,
      show (qt == "analytical") = false by simpa using h3,
      show (qt == "application") = false by simpa using h4]
  simp only [generate_custom_qa, hl]

/-- C4 witness at the unknown type `essay`. -/
theorem c4_unknown_question_type_fails_fast_witness :
    generate_custom_qa Mok "doc" "essay" 5 = (.error (.keyError "essay"), [], []) :=
  c4_unknown_question_type_fails_fast Mok "doc" 5 "essay" (by decide)

/-- C5.  Both prompt builders interpolate exactly the first 5000
characters of the input text: the summary prompt and the Q&A prompt
each contain `text[:5000]`, those are precisely the prompts the two
generation functions send, the interpolated slice never exceeds 5000
characters, and an input shorter than 5000 characters appears in the
prompt in full. -/
theorem c5_prompt_truncation (m : GenModel) (text qt : String) (k : Nat)
    (tmpl : Nat → String) (h : prompt_templates.lookup qt = some tmpl) :
    (∃ a b, summary_prompt text = a ++ pyTruncate text 5000 ++ b) ∧
    (∃ a b, qa_prompt (tmpl k) text = a ++ pyTruncate text 5000 ++ b) ∧
    (generate_summary m text).2 = [summary_prompt text] ∧
    (generate_custom_qa m text qt k).2.1 = [qa_prompt (tmpl k) text] ∧
    (pyTruncate text 5000).length ≤ 5000 ∧
    (text.length < 5000 → pyTruncate text 5000 = text) := by
  refine ⟨⟨_, _, rfl⟩, ?_, ?_, ?_, ?_, ?_⟩
  · refine ⟨"\n    " ++ tmpl k ++
      "\n    Format the response as a list of dictionaries with \x27question\x27 and \x27answer\x27 keys.\n    Make answers detailed and comprehensive.\n\n    Text: ",
      "\n    ", ?_⟩
    simp [qa_prompt, String.append_assoc]
  · cases hm : m (summary_prompt text) <;> simp [generate_summary, hm]
  · obtain ⟨v, ef, hq⟩ := generate_custom_qa_known m text qt k tmpl h
    rw [hq]
  · have he : (pyTruncate text 5000).length = (text.data.take 5000).length := rfl
    rw [he, List.length_take]
    exact min_le_left _ _
  · intro hlt
    have hle : text.data.length ≤ 5000 := Nat.le_of_lt hlt
    show String.mk (text.data.take 5000) = text
    rw [List.take_of_length_le hle]

/-- C5 witness: a 9-character text with the factual template. -/
theorem c5_prompt_truncation_witness :
    (∃ a b, summary_prompt "short doc" = a ++ pyTruncate "short doc" 5000 ++ b) ∧
    (∃ a b, qa_prompt (factual_template 5) "short doc" =
      a ++ pyTruncate "short doc" 5000 ++ b) ∧
    (generate_summary Mok "short doc").2 = [summary_prompt "short doc"] ∧
    (generate_custom_qa Mok "short doc" "factual" 5).2.1 =
      [qa_prompt (factual_template 5) "short doc"] ∧
    (pyTruncate "short doc" 5000).length ≤ 5000 ∧
    ("short doc".length < 5000 → pyTruncate "short doc" 5000 = "short doc") :=
  c5_prompt_truncation Mok "short doc" "factual" 5 factual_template rfl

/-- C6.  Under either backend, a successful extraction returns the
per-page texts concatenated in document page order with no separator
inserted between pages. -/
theorem c6_concat_in_page_order (f : UploadedFile) (ps : List String)
    (fs : FS) (tmp : String) :
    (f.pagesMu = some ps →
      (extract_text_from_pdf f "PyMuPDF" fs tmp).1 = some (concatPages ps)) ∧
    (f.pagesPy = some ps →
      (extract_text_from_pdf f "PyPDF2" fs tmp).1 = some (concatPages ps)) := by
  constructor
  · intro h
    simp [extract_text_from_pdf, extract_with_pymupdf, h, foldl_append_eq ps ""]
  · intro h
    simp [extract_text_from_pdf, extract_with_pypdf2, h, foldl_append_eq ps ""]

/-- C6 witness on a concrete two-page document. -/
theorem c6_concat_in_page_order_witness :
    (extract_text_from_pdf F3 "PyMuPDF" ⟨[]⟩ "tmp0").1 =
      some (concatPages ["alpha ", "beta"]) ∧
    (extract_text_from_pdf F3 "PyPDF2" ⟨[]⟩ "tmp0").1 =
      some (concatPages ["alpha ", "beta"]) :=
  ⟨(c6_concat_in_page_order F3 ["alpha ", "beta"] ⟨[]⟩ "tmp0").1 rfl,
   (c6_concat_in_page_order F3 ["alpha ", "beta"] ⟨[]⟩ "tmp0").2 rfl⟩

/-- C8.  A falsy credential (absent or empty) makes startup call
`exit()` — the process terminates and no extraction or generation
request is ever handled (`main`, line 129, configures before serving
anything); a truthy credential yields the configured `gemini-pro`
model handle. -/
theorem c8_missing_credential_fatal (key : Option String) :
    (optTruthy key = false → configure_gemini key = .error .exitCalled) ∧
    (optTruthy key = true → ∃ c : ConfiguredGemini,
      configure_gemini key = .ok c ∧ c.model.model_name = "gemini-pro") := by
  constructor
  · intro h; simp [configure_gemini, h]
  · intro h
    exact ⟨⟨key.getD "", ⟨"gemini-pro"⟩⟩, by simp [configure_gemini, h], rfl⟩

/-- C8 witness: absent and empty keys exit; a real key configures. -/
theorem c8_missing_credential_fatal_witness :
    configure_gemini none = .error .exitCalled ∧
    configure_gemini (some "") = .error .exitCalled ∧
    ∃ c : ConfiguredGemini,
      configure_gemini (some "AIza-key") = .ok c ∧
        c.model.model_name = "gemini-pro" :=
  ⟨(c8_missing_credential_fatal none).1 rfl,
   (c8_missing_credential_fatal (some "")).1 rfl,
   (c8_missing_credential_fatal (some "AIza-key")).2 rfl⟩

/-- C9.  Any selector other than the exact string `PyMuPDF` — the
supported `PyPDF2` as well as strings naming no backend — silently
takes the PyPDF2 branch with the filesystem untouched; the selector
is never validated. -/
theorem c9_parser_choice_fallback (choice : String) (f : UploadedFile)
    (fs : FS) (tmp : String) (h : choice ≠ "PyMuPDF") :
    extract_text_from_pdf f choice fs tmp = (extract_with_pypdf2 f, fs) := by
  simp [extract_text_from_pdf, h]

/-- C9 witness at a selector naming no supported backend. -/
theorem c9_parser_choice_fallback_witness :
    extract_text_from_pdf F1 "garbage" ⟨[]⟩ "tmp0" = (extract_with_pypdf2 F1, ⟨[]⟩) :=
  c9_parser_choice_fallback "garbage" F1 ⟨[]⟩ "tmp0" (by decide)

/-- C2 counterexample.  A batch of 3 documents in which document 2's
extraction fails produces 2 result entries, not the 3 the claim
requires: the `if text:` guard (app.py line 106) appends nothing for
the failed document. -/
theorem c2_counterexample_batch_length :
    resultsLen (process_multiple_pdfs [F1, BadPDF, F3] Mok ⟨[]⟩ 0) = 2 ∧
    resultsLen (process_multiple_pdfs [F1, BadPDF, F3] Mok ⟨[]⟩ 0) ≠ 3 :=
  ⟨rfl, by decide⟩

/-- C2 amended.  A per-document failure never aborts the batch, but a
document whose extraction fails (or yields falsy text) contributes no
entry at all: a batch of 3 with document 2 failing yields exactly the
two entries for documents 1 and 3, in input order; a failure in
summary or Q&A generation after a successful extraction still
contributes an entry, with `None` markers in both fields. -/
theorem c2_batch_partial_failure :
    (∀ (f1 f2 f3 : UploadedFile) (m : GenModel) (fs : FS) (ctr : Nat),
      extractedTruthy f1 = true → f2.pagesMu = none → extractedTruthy f3 = true →
      ∃ fs', process_multiple_pdfs [f1, f2, f3] m fs ctr =
        (.ok [analyzeOne m f1, analyzeOne m f3], fs',
          docPrompts m f1 ++ docPrompts m f3)) ∧
    (∀ (f : UploadedFile) (fs : FS) (ctr : Nat) (err : String),
      extractedTruthy f = true →
      ∃ fs', process_multiple_pdfs [f] (fun _ => .error err) fs ctr =
        (.ok [⟨f.name, none, none⟩], fs',
          docPrompts (fun _ => .error err) f)) := by
  constructor
  · intro f1 f2 f3 m fs ctr h1 h2 h3
    have h2' : extractedTruthy f2 = false := by
      simp [extractedTruthy, pymupdf_text, h2, optTruthy]
    obtain ⟨fs', hp⟩ := process_spec [f1, f2, f3] m fs ctr
    refine ⟨fs', ?_⟩
    rw [hp]
    simp [List.filter_cons, h1, h2', h3]
  · intro f fs ctr err h
    obtain ⟨fs', hp⟩ := process_spec [f] (fun _ => .error err) fs ctr
    refine ⟨fs', ?_⟩
    rw [hp]
    have hone : analyzeOne (fun _ => .error err) f = ⟨f.name, none, none⟩ := by
      simp [analyzeOne, generate_summary, qa_payload, generate_custom_qa,
        prompt_templates, List.lookup]
    simp [List.filter_cons, h, hone]

/-- C2 amended witness: a concrete 3-document batch with document 2
failing yields the two populated entries, and a generation failure
yields one entry with absent fields. -/
theorem c2_batch_partial_failure_witness :
    (∃ fs', process_multiple_pdfs [F1, BadPDF, F3] Mok ⟨[]⟩ 0 =
      (.ok [analyzeOne Mok F1, analyzeOne Mok F3], fs',
        docPrompts Mok F1 ++ docPrompts Mok F3)) ∧
    (∃ fs', process_multiple_pdfs [F1] Mfail ⟨[]⟩ 0 =
      (.ok [⟨F1.name, none, none⟩], fs', docPrompts Mfail F1)) :=
  ⟨c2_batch_partial_failure.1 F1 BadPDF F3 Mok ⟨[]⟩ 0 rfl rfl rfl,
   c2_batch_partial_failure.2 F1 ⟨[]⟩ 0 "503 service unavailable" rfl⟩

/-- C10.  A document whose extraction succeeds with the empty string
fails the `if text:` guard exactly as an extraction failure does: it
contributes no result entry, no prompt is sent for it (no summary or
Q&A generation is performed), and the batch results equal those of
the batch with the document replaced by one whose extraction raises. -/
theorem c10_empty_extraction_skipped (f g : UploadedFile) (ps : List String)
    (rest : List UploadedFile) (m : GenModel) (fs : FS) (ctr : Nat)
    (hf : f.pagesMu = some ps) (hemp : concatPages ps = "")
    (hg : g.pagesMu = none) :
    (process_multiple_pdfs (f :: rest) m fs ctr).1 =
      (process_multiple_pdfs rest m fs ctr).1 ∧
    (process_multiple_pdfs (f :: rest) m fs ctr).2.2 =
      (process_multiple_pdfs rest m fs ctr).2.2 ∧
    (process_multiple_pdfs (f :: rest) m fs ctr).1 =
      (process_multiple_pdfs (g :: rest) m fs ctr).1 := by
  have hf' : extractedTruthy f = false := by
    simp only [extractedTruthy, pymupdf_text, hf, optTruthy, foldl_append_eq ps "",
      String.empty_append, hemp]
    rfl
  have hg' : extractedTruthy g = false := by
    simp [extractedTruthy, pymupdf_text, hg, optTruthy]
  obtain ⟨fs1, h1⟩ := process_spec (f :: rest) m fs ctr
  obtain ⟨fs2, h2⟩ := process_spec rest m fs ctr
  obtain ⟨fs3, h3⟩ := process_spec (g :: rest) m fs ctr
  rw [h1, h2, h3]
  simp [List.filter_cons, hf', hg']

mutual

/-- Serializing a Python value and reading it back is the identity. -/
theorem jsonToPyValue_pyValueToJson :
    ∀ v : PyValue, jsonToPyValue (pyValueToJson v) = some v
  | .int n => rfl
  | .str s => rfl
  | .list xs => by
    simp [pyValueToJson, jsonToPyValue, jsonToPyValues_pyValuesToJson xs]
  | .dict kvs => by
    simp [pyValueToJson, jsonToPyValue, jsonToPyPairs_pyPairsToJson kvs]

/-- Round trip for lists of Python values. -/
theorem jsonToPyValues_pyValuesToJson :
    ∀ vs : List PyValue, jsonToPyValues (pyValuesToJson vs) = some vs
  | [] => rfl
  | v :: vs => by
    simp [pyValuesToJson, jsonToPyValues, jsonToPyValue_pyValueToJson v,
      jsonToPyValues_pyValuesToJson vs]

/-- Round trip for dictionary entry lists. -/
theorem jsonToPyPairs_pyPairsToJson :
    ∀ kvs : List (String × PyValue), jsonToPyPairs (pyPairsToJson kvs) = some kvs
  | [] => rfl
  | (k, v) :: kvs => by
    simp [pyPairsToJson, jsonToPyPairs, jsonToPyValue_pyValueToJson v,
      jsonToPyPairs_pyPairsToJson kvs]

end

/-- Round trip for one serialized result dict. -/
theorem jsonToResult_resultToJson (r : AnalysisResult) :
    jsonToResult (resultToJson r) = some r := by
  obtain ⟨fn, s, q⟩ := r
  have hs : jsonToSummary (summaryToJson s) = some s := by
    cases s <;> rfl
  have hq : jsonToQa (qaToJson q) = some q := by
    cases q with
    | none => rfl
    | some v =>
      cases v with
      | int n => rfl
      | str s => rfl
      | list xs =>
        simp [qaToJson, pyValueToJson, jsonToQa, jsonToPyValues_pyValuesToJson xs]
      | dict kvs =>
        simp [qaToJson, pyValueToJson, jsonToQa, jsonToPyPairs_pyPairsToJson kvs]
  simp [resultToJson, jsonToResult, hs, hq]

/-- C7.  Exporting a batch result with `save_analysis_results` and
decoding the produced JSON document reconstructs the same ordered
sequence of filename/summary/qa_pairs records, with no data loss.
The `json.dumps`/`json.loads` string codec of the standard library is
modelled as the identity on JSON trees. -/
theorem c7_json_round_trip (results : List AnalysisResult) :
    load_analysis_results (save_analysis_results results) = some results := by
  induction results with
  | nil => rfl
  | cons r rs ih =>
    simp only [save_analysis_results, load_analysis_results, List.map_cons,
      jsonToResults, jsonToResult_resultToJson r] at *
    rw [ih]

/-- C10 witness: a blank-but-readable document and a corrupt one are
interchangeable in front of a non-empty batch. -/
theorem c10_empty_extraction_skipped_witness :
    (process_multiple_pdfs [EmptyPDF, F1] Mok ⟨[]⟩ 0).1 =
      (process_multiple_pdfs [F1] Mok ⟨[]⟩ 0).1 ∧
    (process_multiple_pdfs [EmptyPDF, F1] Mok ⟨[]⟩ 0).2.2 =
      (process_multiple_pdfs [F1] Mok ⟨[]⟩ 0).2.2 ∧
    (process_multiple_pdfs [EmptyPDF, F1] Mok ⟨[]⟩ 0).1 =
      (process_multiple_pdfs [BadPDF, F1] Mok ⟨[]⟩ 0).1 :=
  c10_empty_extraction_skipped EmptyPDF BadPDF [] [F1] Mok ⟨[]⟩ 0 rfl rfl rfl

end PDFChat
